import Mathlib

/-!
Verification of the resume/job-description matcher in `app.py`.

The Python source is shallowly embedded: strings are Lean `String`s
(manipulated through their character lists), Python lists become Lean
`List`s, Python `set` arithmetic becomes `Finset` arithmetic, and the
section dictionary of `build_resume` becomes an association list whose
lookups return `Option` (modelling `KeyError` as `none`).
-/

namespace ResumeAgent

/-- ASCII lower-casing of one character; models the effect of Python's
`str.lower` on the ASCII range (the only range the skill keywords and
section markers use). -/
def asciiLower (c : Char) : Char :=
  if 'A' ≤ c ∧ c ≤ 'Z' then Char.ofNat (c.toNat + 32) else c

/-- Model of Python `text.lower()` (ASCII range). -/
def pyLower (s : String) : String :=
  String.mk (s.data.map asciiLower)

/-- `charListPrefix n h` is true when `n` is a prefix of `h`. -/
def charListPrefix : List Char → List Char → Bool
  | [], _ => true
  | _ :: _, [] => false
  | a :: as, b :: bs => a == b && charListPrefix as bs

/-- `charListSub n h` is true when `n` occurs contiguously inside `h`. -/
def charListSub (needle : List Char) : List Char → Bool
  | [] => charListPrefix needle []
  | c :: t => charListPrefix needle (c :: t) || charListSub needle t

/-- Model of Python's substring test `needle in hay`. -/
def strContains (hay needle : String) : Bool :=
  charListSub needle.data hay.data

/-- The fixed keyword list `TECH_KEYWORDS` of `app.py` (lines 38-43). -/
def TECH_KEYWORDS : List String :=
  ["python","java","c","c++","sql","aws","ml","ai","flask","django",
   "react","node","git","docker","kubernetes","linux","tensorflow",
   "pandas","numpy","matlab","verilog","vhdl","arduino","raspberry pi",
   "stm32","iot","fpga","asic","eda tools","microcontrollers"]

/-- The extraction loop of app.py lines 45-51, abstracted over the
keyword list exactly as spec §4.1 presents it
(`extractSkills(text, skillList)`): lowercase the text, keep every list
entry occurring as a substring. -/
def extractSkillsWith (text : String) (skillList : List String) : List String :=
  skillList.filter (fun skill => strContains (pyLower text) skill)

/-- `extract_skills` (app.py lines 45-51): the loop instantiated with the
fixed `TECH_KEYWORDS` list.  The source's final `list(set(skills_found))`
only forgets order and duplicates; the loop appends each keyword at most
once, so the result is modelled as the filtered keyword list itself. -/
def extract_skills (text : String) : List String :=
  extractSkillsWith text TECH_KEYWORDS

/-- Strict comparison of characters by code point, as Python compares
characters inside string comparison. -/
def pyCharLt (a b : Char) : Bool := a.toNat < b.toNat

/-- Lexicographic order on character lists by code point: the order Python's
`sorted` uses on strings. -/
def charListLe : List Char → List Char → Bool
  | [], _ => true
  | _ :: _, [] => false
  | a :: as, b :: bs => if a == b then charListLe as bs else pyCharLt a b

/-- Model of Python's `<=` on strings. -/
def pyStrLe (a b : String) : Bool := charListLe a.data b.data

/-- Model of Python's `sorted` on a list of strings. -/
def pySortStr (l : List String) : List String :=
  List.insertionSort (fun a b => pyStrLe a b = true) l

/-- `matched_skills` (app.py line 60): `sorted(list(set(old) & set(jd)))`.
The intersection of the two duplicate-free skill lists is modelled by a
membership filter, then sorted. -/
def matched_skills (old_text jd_text : String) : List String :=
  pySortStr ((extract_skills old_text).filter (fun s => s ∈ extract_skills jd_text))

/-- `unmatched_skills` (app.py line 61): `sorted(list(set(jd) - set(old)))`. -/
def unmatched_skills (old_text jd_text : String) : List String :=
  pySortStr ((extract_skills jd_text).filter (fun s => s ∉ extract_skills old_text))

/-- The set arithmetic of app.py lines 60-61 abstracted over the two skill
sets: `(set(resume) & set(job), set(job) - set(resume))`. -/
def diffSkills (resumeSkills jobSkills : Finset String) : Finset String × Finset String :=
  (resumeSkills ∩ jobSkills, jobSkills \ resumeSkills)

/-- Modelled from the spec: no variant under `src/` computes a lexical
score, so the formula of spec §4.1(a) is taken verbatim:
`100 × |skills(resume) ∩ skills(job)| / |skills(job)|`, defined as `0`
when the job-side skill set is empty. -/
def lexicalScore (resumeSkills jobSkills : Finset String) : ℚ :=
  if jobSkills.card = 0 then 0
  else 100 * ((resumeSkills ∩ jobSkills).card : ℚ) / (jobSkills.card : ℚ)

/-- Modelled from the spec: rounding of a score to two decimal places
(spec §4.1 "round to two decimal places"). -/
def round2 (q : ℚ) : ℚ := ((round (q * 100) : ℤ) : ℚ) / 100

/-- Whitespace characters stripped by Python's `str.strip()`. -/
def isPySpace (c : Char) : Bool :=
  c == ' ' || c == '\t' || c == '\n' || c == '\r' || c == '\x0b' || c == '\x0c'

/-- Model of Python `s.strip()`. -/
def pyStrip (s : String) : String :=
  String.mk (((s.data.dropWhile isPySpace).reverse.dropWhile isPySpace).reverse)

/-- Splitting a character list at newline characters; models Python's
`text.split("\n")` (which yields `[""]` on the empty string). -/
def splitNl (l : List Char) : List (List Char) :=
  l.foldr
    (fun c acc =>
      if c == '\n' then [] :: acc
      else
        match acc with
        | [] => [[c]]
        | h :: t => (c :: h) :: t)
    [[]]

/-- app.py line 72: `[l.strip() for l in old_text.split("\n") if l.strip()]`. -/
def pyLines (text : String) : List String :=
  ((splitNl text.data).map (fun cs => pyStrip (String.mk cs))).filter (fun s => s ≠ "")

/-- The section dictionary of app.py lines 64-70, modelled as an
association list from section name to its collected lines. -/
def SectionsDict : Type := List (String × List String)

/-- Python dict subscript `d[k]`: `none` models a `KeyError`. -/
def dget (d : SectionsDict) (k : String) : Option (List String) :=
  (List.find? (fun p => p.1 == k) d).map (fun p => p.2)

/-- Replace the value bound to `k`, keeping entry order. -/
def dset (d : SectionsDict) (k : String) (v : List String) : SectionsDict :=
  d.map (fun p => if p.1 == k then (k, v) else p)

/-- Python `d[k].append(x)`: `none` models the `KeyError` of a missing key. -/
def dappend (d : SectionsDict) (k : String) (x : String) : Option SectionsDict :=
  (dget d k).map (fun l => dset d k (l ++ [x]))

/-- The dict literal of app.py lines 64-70. -/
def initSections : SectionsDict :=
  [("SUMMARY", []), ("SKILLS", []), ("PROJECTS", []),
   ("EXPERIENCE", []), ("EDUCATION", [])]

/-- One iteration of the classification loop of app.py lines 73-84. -/
def classifyStep (d : SectionsDict) (line : String) : Option SectionsDict :=
  let l := pyLower line
  if strContains l "project" then dappend d "PROJECTS" line
  else if strContains l "intern" || strContains l "experience" then
    dappend d "EXPERIENCE" line
  else if strContains l "b.tech" || strContains l "degree" || strContains l "university" then
    dappend d "EDUCATION" line
  else if TECH_KEYWORDS.any (fun word => strContains l word) then
    dappend d "SKILLS" line
  else dappend d "SUMMARY" line

/-- The whole classification loop of app.py lines 72-84. -/
def classifyDict (lines : List String) : Option SectionsDict :=
  List.foldlM classifyStep initSections lines

/-- The `"-"*40` divider of app.py. -/
def DASHES : String := String.mk (List.replicate 40 '-')

/-- app.py lines 91-93: the fixed summary sentence, extended with the
matched skills when there are any. -/
def summaryText (matched : List String) : String :=
  let base := "Motivated engineering student with strong problem-solving skills and experience in building applications."
  if matched ≠ [] then base ++ " Skilled in " ++ String.intercalate ", " matched ++ "."
  else base

/-- app.py lines 98-101: the two conditional skill lines. -/
def skillsLines (matched unmatched : List String) : String :=
  (if matched ≠ [] then "✅ Matched Skills: " ++ String.intercalate ", " matched ++ "\n" else "")
    ++ (if unmatched ≠ [] then "⚠️ Skills to Learn: " ++ String.intercalate ", " unmatched ++ "\n" else "")

/-- Rendering of one bullet loop (`for p in ...: resume += f"- {p}\n"`). -/
def bullets (l : List String) : String :=
  String.join (l.map (fun p => "- " ++ p ++ "\n"))

/-- `build_resume` (app.py lines 56-121).  The section dictionary accesses
go through `Option`, so a missing key (`KeyError`) would surface as
`none`; everything else is the string assembly of lines 87-119. -/
def build_resume (old_text jd_text name contact : String) :
    Option (String × List String × List String) := do
  let matched := matched_skills old_text jd_text
  let unmatched := unmatched_skills old_text jd_text
  let d ← classifyDict (pyLines old_text)
  let ps ← dget d "PROJECTS"
  let es ← dget d "EXPERIENCE"
  let eds ← dget d "EDUCATION"
  let resume :=
    name ++ "\n" ++ contact ++ "\n\n"
      ++ ("SUMMARY\n" ++ DASHES ++ "\n")
      ++ (summaryText matched ++ "\n\n")
      ++ ("SKILLS\n" ++ DASHES ++ "\n")
      ++ skillsLines matched unmatched
      ++ "\n"
      ++ ("PROJECTS\n" ++ DASHES ++ "\n")
      ++ bullets (ps.take 5)
      ++ "\n"
      ++ ("EXPERIENCE\n" ++ DASHES ++ "\n")
      ++ bullets (es.take 4)
      ++ "\n"
      ++ ("EDUCATION\n" ++ DASHES ++ "\n")
      ++ bullets (eds.take 3)
  pure (resume, matched, unmatched)

/-- The error vocabulary of spec §6 for document extraction. -/
inductive ExtractError
  | unsupportedFormat
  | decodeError
deriving DecidableEq

/-- Model of Python `name.endswith(suffix)`. -/
def pyEndsWith (s suffix : String) : Bool :=
  List.isSuffixOf suffix.data s.data

/-- Helper of `utf8DecodeIgnore`: true for a UTF-8 continuation byte. -/
def isContByte (b : Nat) : Bool := 0x80 ≤ b && b ≤ 0xBF

/-- Byte-level model of Python `bytes.decode("utf-8", errors="ignore")`:
well-formed UTF-8 sequences decode to their code points, every ill-formed
byte is skipped, and the call is total — it never raises.  The `fuel`
argument only bounds the recursion (every step consumes at least one
byte, so any fuel of at least the list length gives the decode). -/
def utf8DecodeIgnoreAux : Nat → List Nat → List Char
  | 0, _ => []
  | _, [] => []
  | fuel + 1, b :: rest =>
    if b ≤ 0x7F then Char.ofNat b :: utf8DecodeIgnoreAux fuel rest
    else if 0xC2 ≤ b && b ≤ 0xDF then
      match rest with
      | [] => []
      | c :: rest2 =>
        if isContByte c then
          Char.ofNat ((b % 32) * 64 + c % 64) :: utf8DecodeIgnoreAux fuel rest2
        else utf8DecodeIgnoreAux fuel (c :: rest2)
    else if 0xE0 ≤ b && b ≤ 0xEF then
      match rest with
      | c1 :: c2 :: rest2 =>
        if (if b == 0xE0 then 0xA0 ≤ c1 && c1 ≤ 0xBF
            else if b == 0xED then 0x80 ≤ c1 && c1 ≤ 0x9F
            else isContByte c1) && isContByte c2 then
          Char.ofNat ((b % 16) * 4096 + (c1 % 64) * 64 + c2 % 64)
            :: utf8DecodeIgnoreAux fuel rest2
        else utf8DecodeIgnoreAux fuel rest
      | _ => []
    else if 0xF0 ≤ b && b ≤ 0xF4 then
      match rest with
      | c1 :: c2 :: c3 :: rest2 =>
        if (if b == 0xF0 then 0x90 ≤ c1 && c1 ≤ 0xBF
            else if b == 0xF4 then 0x80 ≤ c1 && c1 ≤ 0x8F
            else isContByte c1) && isContByte c2 && isContByte c3 then
          Char.ofNat ((b % 8) * 262144 + (c1 % 64) * 4096 + (c2 % 64) * 64 + c3 % 64)
            :: utf8DecodeIgnoreAux fuel rest2
        else utf8DecodeIgnoreAux fuel rest
      | _ => []
    else utf8DecodeIgnoreAux fuel rest

/-- Model of `file.decode("utf-8", errors="ignore")` (app.py line 33). -/
def utf8DecodeIgnore (file : List Nat) : String :=
  String.mk (utf8DecodeIgnoreAux file.length file)

/-- `extract_text` (app.py lines 21-33).  The pdf and docx branches call
the external libraries `pdfplumber` and `python-docx`; they are passed in
as capabilities (spec §6 treats document extraction as externally
supplied).  The final branch is the in-repo fallback: a UTF-8 decode that
ignores malformed bytes. -/
def extract_text
    (pdfExtract docxExtract : List Nat → Except ExtractError String)
    (file : List Nat) (name : String) : Except ExtractError String :=
  if pyEndsWith name ".pdf" then pdfExtract file
  else if pyEndsWith name ".docx" then docxExtract file
  else Except.ok (utf8DecodeIgnore file)

/-- The Streamlit session state the app keeps between reruns
(app.py lines 163-166): the two text inputs. -/
structure SessionState where
  name : String
  contact : String
deriving DecidableEq

/-- `extract_skills` as an invocation against the ambient session state:
the function reads none of it and writes none of it. -/
def runExtract (σ : SessionState) (text : String) : List String × SessionState :=
  (extract_skills text, σ)

/-- `build_resume` as an invocation against the ambient session state. -/
def runMatcher (σ : SessionState) (old_text jd_text name contact : String) :
    Option (String × List String × List String) × SessionState :=
  (build_resume old_text jd_text name contact, σ)

/-! ### Helper lemmas -/

/-- Every entry of `TECH_KEYWORDS` is already lowercase. -/
lemma tech_lower_fixed : ∀ s ∈ TECH_KEYWORDS, pyLower s = s := by decide

/-- The keyword list has no duplicates. -/
lemma tech_nodup : TECH_KEYWORDS.Nodup := by decide

lemma str_append_assoc (a b c : String) : a ++ b ++ c = a ++ (b ++ c) := by
  apply String.ext
  simp [String.data_append, List.append_assoc]

lemma char_toNat_injective {a b : Char} (h : a.toNat = b.toNat) : a = b := by
  have h2 := congrArg Char.ofNat h
  rwa [Char.ofNat_toNat, Char.ofNat_toNat] at h2

lemma charListLe_total : ∀ x y : List Char, charListLe x y = true ∨ charListLe y x = true := by
  intro x
  induction x with
  | nil => intro y; left; rfl
  | cons a as ih =>
    intro y
    cases y with
    | nil => right; rfl
    | cons b bs =>
      by_cases hab : a = b
      · subst hab
        simp only [charListLe, beq_self_eq_true, if_true]
        exact ih bs
      · have hn : a.toNat ≠ b.toNat := fun h => hab (char_toNat_injective h)
        simp only [charListLe, beq_iff_eq, hab, Ne.symm hab, if_false, pyCharLt,
          decide_eq_true_eq]
        omega

lemma charListLe_trans :
    ∀ x y z : List Char, charListLe x y = true → charListLe y z = true →
      charListLe x z = true := by
  intro x
  induction x with
  | nil => intro y z _ _; rfl
  | cons a as ih =>
    intro y z hxy hyz
    cases y with
    | nil => simp [charListLe] at hxy
    | cons b bs =>
      cases z with
      | nil => simp [charListLe] at hyz
      | cons c cs =>
        by_cases hab : a = b <;> by_cases hbc : b = c
        · subst hab; subst hbc
          simp only [charListLe, beq_self_eq_true, if_true] at hxy hyz ⊢
          exact ih bs cs hxy hyz
        · subst hab
          simp only [charListLe, beq_iff_eq, hbc, if_false] at hyz
          simp only [charListLe, beq_iff_eq, hbc, if_false]
          exact hyz
        · subst hbc
          simp only [charListLe, beq_iff_eq, hab, if_false] at hxy
          simp only [charListLe, beq_iff_eq, hab, if_false]
          exact hxy
        · simp only [charListLe, beq_iff_eq, hab, hbc, if_false, pyCharLt,
            decide_eq_true_eq] at hxy hyz
          have hac : a.toNat ≠ c.toNat := by omega
          have : a ≠ c := fun h => hac (by rw [h])
          simp only [charListLe, beq_iff_eq, this, if_false, pyCharLt,
            decide_eq_true_eq]
          omega

lemma pyStrLe_total : ∀ a b : String, pyStrLe a b = true ∨ pyStrLe b a = true :=
  fun a b => charListLe_total a.data b.data

lemma pyStrLe_trans : ∀ a b c : String,
    pyStrLe a b = true → pyStrLe b c = true → pyStrLe a c = true :=
  fun a b c => charListLe_trans a.data b.data c.data

lemma pySortStr_sorted (l : List String) :
    List.Sorted (fun a b => pyStrLe a b = true) (pySortStr l) := by
  haveI : IsTotal String (fun a b => pyStrLe a b = true) := ⟨pyStrLe_total⟩
  haveI : IsTrans String (fun a b => pyStrLe a b = true) :=
    ⟨fun a b c => pyStrLe_trans a b c⟩
  exact List.sorted_insertionSort _ l

lemma pySortStr_perm (l : List String) : List.Perm (pySortStr l) l :=
  List.perm_insertionSort _ l

lemma extract_skills_nodup (text : String) : (extract_skills text).Nodup :=
  tech_nodup.filter _

/-- One classification step keeps the dictionary on the five literal
section keys and never fails. -/
lemma classifyStep_shape (a b c e f : List String) (line : String) :
    ∃ a' b' c' e' f',
      classifyStep [("SUMMARY", a), ("SKILLS", b), ("PROJECTS", c),
        ("EXPERIENCE", e), ("EDUCATION", f)] line
        = some [("SUMMARY", a'), ("SKILLS", b'), ("PROJECTS", c'),
            ("EXPERIENCE", e'), ("EDUCATION", f')] := by
  by_cases h1 : strContains (pyLower line) "project" = true
  · exact ⟨a, b, c ++ [line], e, f,
      by simp [classifyStep, h1, dappend, dget, dset, List.find?]⟩
  by_cases h2 : (strContains (pyLower line) "intern"
      || strContains (pyLower line) "experience") = true
  · exact ⟨a, b, c, e ++ [line], f,
      by simp [classifyStep, h1, h2, dappend, dget, dset, List.find?]⟩
  by_cases h3 : (strContains (pyLower line) "b.tech" || strContains (pyLower line) "degree"
      || strContains (pyLower line) "university") = true
  · exact ⟨a, b, c, e, f ++ [line],
      by simp [classifyStep, h1, h2, h3, dappend, dget, dset, List.find?]⟩
  by_cases h4 : (TECH_KEYWORDS.any fun word => strContains (pyLower line) word) = true
  · exact ⟨a, b ++ [line], c, e, f,
      by simp [classifyStep, h1, h2, h3, h4, dappend, dget, dset, List.find?]⟩
  · exact ⟨a ++ [line], b, c, e, f,
      by simp [classifyStep, h1, h2, h3, h4, dappend, dget, dset, List.find?]⟩

/-- The classification fold keeps the five-key shape and never fails. -/
lemma classifyFold_shape (lines : List String) :
    ∀ a b c e f : List String,
      ∃ a' b' c' e' f',
        List.foldlM classifyStep [("SUMMARY", a), ("SKILLS", b), ("PROJECTS", c),
          ("EXPERIENCE", e), ("EDUCATION", f)] lines
          = some [("SUMMARY", a'), ("SKILLS", b'), ("PROJECTS", c'),
              ("EXPERIENCE", e'), ("EDUCATION", f')] := by
  induction lines with
  | nil => intro a b c e f; exact ⟨a, b, c, e, f, rfl⟩
  | cons hd tl ih =>
    intro a b c e f
    obtain ⟨a1, b1, c1, e1, f1, hstep⟩ := classifyStep_shape a b c e f hd
    obtain ⟨a2, b2, c2, e2, f2, hrest⟩ := ih a1 b1 c1 e1 f1
    refine ⟨a2, b2, c2, e2, f2, ?_⟩
    simp only [List.foldlM, hstep, Option.bind_some]
    exact hrest

/-- The whole classification never fails and yields the five sections. -/
lemma classifyDict_shape (lines : List String) :
    ∃ su sk ps es eds,
      classifyDict lines
        = some [("SUMMARY", su), ("SKILLS", sk), ("PROJECTS", ps),
            ("EXPERIENCE", es), ("EDUCATION", eds)] :=
  classifyFold_shape lines [] [] [] [] []

/-- Evaluation of `build_resume` once the classification result is known. -/
lemma build_resume_some (old_text jd_text name contact : String)
    (su sk ps es eds : List String)
    (h : classifyDict (pyLines old_text)
      = some [("SUMMARY", su), ("SKILLS", sk), ("PROJECTS", ps),
          ("EXPERIENCE", es), ("EDUCATION", eds)]) :
    build_resume old_text jd_text name contact
      = some
          (name ++ "\n" ++ contact ++ "\n\n"
            ++ ("SUMMARY\n" ++ DASHES ++ "\n")
            ++ (summaryText (matched_skills old_text jd_text) ++ "\n\n")
            ++ ("SKILLS\n" ++ DASHES ++ "\n")
            ++ skillsLines (matched_skills old_text jd_text) (unmatched_skills old_text jd_text)
            ++ "\n"
            ++ ("PROJECTS\n" ++ DASHES ++ "\n")
            ++ bullets (ps.take 5)
            ++ "\n"
            ++ ("EXPERIENCE\n" ++ DASHES ++ "\n")
            ++ bullets (es.take 4)
            ++ "\n"
            ++ ("EDUCATION\n" ++ DASHES ++ "\n")
            ++ bullets (eds.take 3),
           matched_skills old_text jd_text, unmatched_skills old_text jd_text) := by
  unfold build_resume
  rw [h]
  simp [dget, List.find?]

lemma matched_skills_toFinset (old jd : String) :
    (matched_skills old jd).toFinset
      = (extract_skills old).toFinset ∩ (extract_skills jd).toFinset := by
  rw [matched_skills, List.toFinset_eq_of_perm _ _ (pySortStr_perm _)]
  ext x
  simp [List.mem_filter, Finset.mem_inter]

lemma unmatched_skills_toFinset (old jd : String) :
    (unmatched_skills old jd).toFinset
      = (extract_skills jd).toFinset \ (extract_skills old).toFinset := by
  rw [unmatched_skills, List.toFinset_eq_of_perm _ _ (pySortStr_perm _)]
  ext x
  simp [List.mem_filter, Finset.mem_sdiff]

lemma round_rat_eq (q : ℚ) (z : ℤ) (h1 : (z : ℚ) ≤ q + 1/2) (h2 : q + 1/2 < z + 1) :
    round q = z := by
  rw [round_eq]
  exact Int.floor_eq_iff.mpr ⟨h1, h2⟩

/-! ### Claim theorems -/

/-- C1: for every input text, `extract_skills` lowercases the text and
returns exactly those entries of the fixed skill list that occur as a
substring anywhere in the lowercased text — a skill is in the result iff
it is in `TECH_KEYWORDS` and is a case-insensitive substring of the
text. -/
theorem extract_skills_mem_iff (s text : String) :
    s ∈ extract_skills text
      ↔ s ∈ TECH_KEYWORDS ∧ strContains (pyLower text) (pyLower s) = true := by
  rw [extract_skills, extractSkillsWith, List.mem_filter]
  constructor
  · rintro ⟨hmem, hc⟩
    exact ⟨hmem, by rwa [tech_lower_fixed s hmem]⟩
  · rintro ⟨hmem, hc⟩
    exact ⟨hmem, by rwa [tech_lower_fixed s hmem] at hc⟩

/-- C2 (counterexample): with an empty job skill set the lexical score is
`0`, yet the resume set is (vacuously) a superset of the job set, so the
claim's "100 whenever resume ⊇ job" fails there. -/
theorem lexicalScore_superset_empty_cex :
    lexicalScore ∅ ∅ = 0 ∧ (∅ : Finset String) ⊆ ∅ ∧ lexicalScore ∅ ∅ ≠ 100 := by
  refine ⟨by simp [lexicalScore], Finset.Subset.refl _, ?_⟩
  simp [lexicalScore]

/-- C2 (amended): the lexical score is `100·|R ∩ J|/|J|`, is `0` when the
job skill set is empty, and is `100` whenever the job set is nonempty and
the resume set is a superset of it. -/
theorem lexicalScore_spec (R J : Finset String) :
    (J.card = 0 → lexicalScore R J = 0)
    ∧ (J.card ≠ 0 → lexicalScore R J = 100 * ((R ∩ J).card : ℚ) / (J.card : ℚ))
    ∧ (J.card ≠ 0 → J ⊆ R → lexicalScore R J = 100) := by
  refine ⟨fun h => by simp [lexicalScore, h], fun h => by simp [lexicalScore, h],
    fun h hsub => ?_⟩
  have hinter : R ∩ J = J := Finset.inter_eq_right.mpr hsub
  have hc : (J.card : ℚ) ≠ 0 := Nat.cast_ne_zero.mpr h
  simp only [lexicalScore, h, if_false, hinter]
  rw [mul_div_assoc, div_self hc, mul_one]

/-- Witness for `lexicalScore_spec`: a concrete nonempty superset case
scoring 100. -/
theorem lexicalScore_spec_witness : lexicalScore {"python"} {"python"} = 100 :=
  (lexicalScore_spec {"python"} {"python"}).2.2 (by decide) (by decide)

/-- C3 (counterexample): on the spec's example texts the code's matcher —
which always uses the full `TECH_KEYWORDS` list — also finds the keyword
`"c"` (a substring of "experienced" and "docker"), so matched is not
`{python, docker}` and the rounded lexical score is not 66.67. -/
theorem spec_example_cex :
    (matched_skills "Experienced in Python and Docker projects"
        "Looking for Python, AWS, Docker expert").toFinset
      ≠ ({"python", "docker"} : Finset String)
    ∧ round2 (lexicalScore
        (extract_skills "Experienced in Python and Docker projects").toFinset
        (extract_skills "Looking for Python, AWS, Docker expert").toFinset)
      ≠ 6667 / 100 := by
  constructor
  · decide
  · have hI : ((extract_skills "Experienced in Python and Docker projects").toFinset
        ∩ (extract_skills "Looking for Python, AWS, Docker expert").toFinset).card = 3 := by
      decide
    have hJ : (extract_skills "Looking for Python, AWS, Docker expert").toFinset.card = 4 := by
      decide
    simp only [lexicalScore, hI, hJ]
    have hr : round ((100 * ((3 : ℕ) : ℚ) / ((4 : ℕ) : ℚ)) * 100) = 7500 :=
      round_rat_eq _ 7500 (by push_cast; norm_num) (by push_cast; norm_num)
    norm_num [round2, hr]

/-- C3 (amended): on the spec's example texts the matcher with the fixed
`TECH_KEYWORDS` list yields matched `{c, docker, python}`, missing
`{aws}` and rounded lexical score 75; the spec's stated outputs
(`{python, docker}`, `{aws}`, 66.67) arise only when the skill list is
restricted to the example's `{python, aws, docker}`. -/
theorem spec_example_amended :
    matched_skills "Experienced in Python and Docker projects"
        "Looking for Python, AWS, Docker expert" = ["c", "docker", "python"]
    ∧ unmatched_skills "Experienced in Python and Docker projects"
        "Looking for Python, AWS, Docker expert" = ["aws"]
    ∧ round2 (lexicalScore
        (extract_skills "Experienced in Python and Docker projects").toFinset
        (extract_skills "Looking for Python, AWS, Docker expert").toFinset) = 75
    ∧ extractSkillsWith "Experienced in Python and Docker projects"
        ["python", "aws", "docker"] = ["python", "docker"]
    ∧ extractSkillsWith "Looking for Python, AWS, Docker expert"
        ["python", "aws", "docker"] = ["python", "aws", "docker"]
    ∧ diffSkills
        (extractSkillsWith "Experienced in Python and Docker projects"
          ["python", "aws", "docker"]).toFinset
        (extractSkillsWith "Looking for Python, AWS, Docker expert"
          ["python", "aws", "docker"]).toFinset
        = ({"python", "docker"}, {"aws"})
    ∧ round2 (lexicalScore
        (extractSkillsWith "Experienced in Python and Docker projects"
          ["python", "aws", "docker"]).toFinset
        (extractSkillsWith "Looking for Python, AWS, Docker expert"
          ["python", "aws", "docker"]).toFinset) = 6667 / 100 := by
  refine ⟨by decide, by decide, ?_, by decide, by decide, by decide, ?_⟩
  · have hI : ((extract_skills "Experienced in Python and Docker projects").toFinset
        ∩ (extract_skills "Looking for Python, AWS, Docker expert").toFinset).card = 3 := by
      decide
    have hJ : (extract_skills "Looking for Python, AWS, Docker expert").toFinset.card = 4 := by
      decide
    simp only [lexicalScore, hI, hJ]
    have hr : round ((100 * ((3 : ℕ) : ℚ) / ((4 : ℕ) : ℚ)) * 100) = 7500 :=
      round_rat_eq _ 7500 (by push_cast; norm_num) (by push_cast; norm_num)
    norm_num [round2, hr]
  · have hI : ((extractSkillsWith "Experienced in Python and Docker projects"
          ["python", "aws", "docker"]).toFinset
        ∩ (extractSkillsWith "Looking for Python, AWS, Docker expert"
          ["python", "aws", "docker"]).toFinset).card = 2 := by decide
    have hJ : (extractSkillsWith "Looking for Python, AWS, Docker expert"
        ["python", "aws", "docker"]).toFinset.card = 3 := by decide
    simp only [lexicalScore, hI, hJ]
    have hr : round ((20000 : ℚ) / 3) = 6667 :=
      round_rat_eq _ 6667 (by norm_num) (by norm_num)
    norm_num [round2, hr]

/-- C4: matched is the set intersection of resume and job skills, missing
is the job skills absent from the resume skills. -/
theorem matched_inter_unmatched_sdiff (old jd : String) :
    (matched_skills old jd).toFinset
        = (extract_skills old).toFinset ∩ (extract_skills jd).toFinset
    ∧ (unmatched_skills old jd).toFinset
        = (extract_skills jd).toFinset \ (extract_skills old).toFinset :=
  ⟨matched_skills_toFinset old jd, unmatched_skills_toFinset old jd⟩

/-- C5: matched and missing partition the job skill set — their union is
the job set and their intersection is empty, both for the abstract
`diffSkills` and for the lists `build_resume` computes. -/
theorem diffSkills_partition :
    (∀ A B : Finset String,
      (diffSkills A B).1 ∪ (diffSkills A B).2 = B
      ∧ (diffSkills A B).1 ∩ (diffSkills A B).2 = ∅)
    ∧ ∀ old jd : String,
        (matched_skills old jd).toFinset ∪ (unmatched_skills old jd).toFinset
            = (extract_skills jd).toFinset
        ∧ (matched_skills old jd).toFinset ∩ (unmatched_skills old jd).toFinset = ∅ := by
  constructor
  · intro A B
    constructor
    · ext x; simp [diffSkills]; tauto
    · ext x; simp [diffSkills]; tauto
  · intro old jd
    rw [matched_skills_toFinset, unmatched_skills_toFinset]
    constructor
    · ext x; simp; tauto
    · ext x; simp; tauto

/-- C6 (counterexample): `"resume.xyz"` has an unrecognized extension and
`[255]` is malformed UTF-8, yet `extract_text` succeeds with the empty
string — it raises neither `UnsupportedFormatError` nor `DecodeError`. -/
theorem extract_text_cex :
    pyEndsWith "resume.xyz" ".pdf" = false
    ∧ pyEndsWith "resume.xyz" ".docx" = false
    ∧ extract_text (fun _ => Except.error ExtractError.decodeError)
        (fun _ => Except.error ExtractError.decodeError) [255] "resume.xyz"
        = Except.ok "" :=
  ⟨by decide, by decide, by rfl⟩

/-- C6 (amended): for every input whose name ends in neither `.pdf` nor
`.docx`, `extract_text` never fails — whatever the external pdf/docx
extractors do, the bytes are decoded as UTF-8 with malformed bytes
ignored, so neither `UnsupportedFormatError` nor `DecodeError` (nor any
other error) is raised on that path. -/
theorem extract_text_fallback (pdfF docxF : List Nat → Except ExtractError String)
    (file : List Nat) (name : String)
    (h1 : pyEndsWith name ".pdf" = false)
    (h2 : pyEndsWith name ".docx" = false) :
    extract_text pdfF docxF file name = Except.ok (utf8DecodeIgnore file) := by
  simp [extract_text, h1, h2]

/-- Witness for `extract_text_fallback`: a concrete `.txt` upload decodes
to its text. -/
theorem extract_text_fallback_witness :
    extract_text (fun _ => Except.error ExtractError.decodeError)
      (fun _ => Except.error ExtractError.decodeError) [104, 105] "a.txt"
      = Except.ok "hi" := by
  rw [extract_text_fallback _ _ _ _ (by decide) (by decide)]
  rfl

/-- C7: resume building (with every dictionary access modelled as
fallible) always returns a value — no error branch is reachable for any
pair of input texts. -/
theorem build_resume_total (old jd name contact : String) :
    ∃ out, build_resume old jd name contact = some out := by
  obtain ⟨su, sk, ps, es, eds, h⟩ := classifyDict_shape (pyLines old)
  exact ⟨_, build_resume_some old jd name contact su sk ps es eds h⟩

/-- C8: skill extraction and resume building are deterministic and
stateless — their results do not depend on the session state, and they
leave the session state unchanged, so repeated invocations on identical
inputs return identical outputs. -/
theorem matcher_deterministic_stateless :
    ∀ (σ σ' : SessionState) (old jd name contact text : String),
      (runExtract σ text).1 = (runExtract σ' text).1
      ∧ (runExtract σ text).2 = σ
      ∧ (runMatcher σ old jd name contact).1 = (runMatcher σ' old jd name contact).1
      ∧ (runMatcher σ old jd name contact).2 = σ :=
  fun _ _ _ _ _ _ _ => ⟨rfl, rfl, rfl, rfl⟩

/-- C9: the matched and missing skill lists returned by `build_resume`
are sorted ascending (in Python's string order) and duplicate-free. -/
theorem build_resume_lists_sorted_nodup (old jd name contact : String) :
    ∃ r, build_resume old jd name contact
        = some (r, matched_skills old jd, unmatched_skills old jd)
      ∧ List.Sorted (fun a b => pyStrLe a b = true) (matched_skills old jd)
      ∧ (matched_skills old jd).Nodup
      ∧ List.Sorted (fun a b => pyStrLe a b = true) (unmatched_skills old jd)
      ∧ (unmatched_skills old jd).Nodup := by
  obtain ⟨su, sk, ps, es, eds, h⟩ := classifyDict_shape (pyLines old)
  refine ⟨_, build_resume_some old jd name contact su sk ps es eds h,
    pySortStr_sorted _, ?_, pySortStr_sorted _, ?_⟩
  · exact (pySortStr_perm _).nodup_iff.mpr ((extract_skills_nodup old).filter _)
  · exact (pySortStr_perm _).nodup_iff.mpr ((extract_skills_nodup jd).filter _)

/-- C10: the generated resume renders at most 5 PROJECTS lines, 4
EXPERIENCE lines and 3 EDUCATION lines — the output text embeds exactly
the first-5/4/3 prefixes of the classified section lines, and later
lines are dropped. -/
theorem build_resume_section_caps (old jd name contact : String) :
    ∃ su sk ps es eds pre mid1 mid2,
      classifyDict (pyLines old)
          = some [("SUMMARY", su), ("SKILLS", sk), ("PROJECTS", ps),
              ("EXPERIENCE", es), ("EDUCATION", eds)]
      ∧ build_resume old jd name contact
          = some (pre ++ bullets (ps.take 5) ++ mid1 ++ bullets (es.take 4)
                ++ mid2 ++ bullets (eds.take 3),
              matched_skills old jd, unmatched_skills old jd)
      ∧ (ps.take 5).length = min 5 ps.length ∧ (ps.take 5).length ≤ 5
      ∧ (es.take 4).length = min 4 es.length ∧ (es.take 4).length ≤ 4
      ∧ (eds.take 3).length = min 3 eds.length ∧ (eds.take 3).length ≤ 3 := by
  obtain ⟨su, sk, ps, es, eds, h⟩ := classifyDict_shape (pyLines old)
  refine ⟨su, sk, ps, es, eds,
    name ++ "\n" ++ contact ++ "\n\n"
      ++ ("SUMMARY\n" ++ DASHES ++ "\n")
      ++ (summaryText (matched_skills old jd) ++ "\n\n")
      ++ ("SKILLS\n" ++ DASHES ++ "\n")
      ++ skillsLines (matched_skills old jd) (unmatched_skills old jd)
      ++ "\n"
      ++ ("PROJECTS\n" ++ DASHES ++ "\n"),
    "\n" ++ ("EXPERIENCE\n" ++ DASHES ++ "\n"),
    "\n" ++ ("EDUCATION\n" ++ DASHES ++ "\n"),
    h, ?_, List.length_take _ _, List.length_take_le _ _,
    List.length_take _ _, List.length_take_le _ _,
    List.length_take _ _, List.length_take_le _ _⟩
  rw [build_resume_some old jd name contact su sk ps es eds h]
  simp only [str_append_assoc]

end ResumeAgent
